import Mathlib

/-!
# Verification of the Xerpihan financial-analysis dashboard

A shallow embedding of `xerpihan.py`: the dataset loader (`load_data`),
the per-page Metric Presenter computations (Overview KPIs, revenue-trend
filtering, growth-column discovery, risk slots, data exploration), and the
CSV export/re-parse pair.  Tables are modelled as a list of column names
plus a list of rows of cells; pandas numeric coercion (`pd.to_numeric`
with errors="coerce") is modelled by a decimal parser that maps
non-coercible cells to the missing value `na`.
-/

namespace Xerpihan

/-- A table cell: a rational number, a raw string, or a missing value
(pandas `NaN`).  Rationals stand in for the floating-point numbers of the
source; the claims under study involve only exact decimal arithmetic. -/
inductive Cell where
  | num (q : ℚ)
  | str (s : String)
  | na
deriving DecidableEq, Repr

/-- Is every character a decimal digit, with at least one present? -/
def isDigits (cs : List Char) : Bool :=
  !cs.isEmpty && cs.all (·.isDigit)

/-- Value of a digit run, most significant first. -/
def digitsVal (cs : List Char) : ℕ :=
  cs.foldl (fun a c => a * 10 + (c.toNat - 48)) 0

/-- Parse an unsigned decimal literal (`"12"`, `"12.5"`, `"12."`, `".5"`);
at least one digit must be present.  Models the grammar accepted by
`pd.to_numeric` on the data at hand (scientific notation and special
floats do not occur in the claims). -/
def parseUnsigned (cs : List Char) : Option ℚ :=
  let intPart := cs.takeWhile (· ≠ '.')
  match cs.dropWhile (· ≠ '.') with
  | [] =>
      if isDigits intPart then some (digitsVal intPart) else none
  | _ :: frac =>
      if intPart.all (·.isDigit) && frac.all (·.isDigit)
          && !(intPart.isEmpty && frac.isEmpty) then
        some ((digitsVal intPart : ℚ) + (digitsVal frac : ℚ) / (10 ^ frac.length))
      else none

/-- Parse a signed decimal literal. -/
def parseDec (s : String) : Option ℚ :=
  match s.toList with
  | '-' :: cs => (parseUnsigned cs).map (fun q => -q)
  | '+' :: cs => parseUnsigned cs
  | cs => parseUnsigned cs

/-- Models `pd.to_numeric(c, errors="coerce")` on one cell: numbers pass through,
numeric strings are parsed, everything else becomes missing. -/
def toNumericCell : Cell → Cell
  | .num q => .num q
  | .str s => match parseDec s with
      | some q => .num q
      | none => .na
  | .na => .na

/-- The numeric value a cell coerces to, if any. -/
def coerces (c : Cell) : Option ℚ :=
  match toNumericCell c with
  | .num q => some q
  | _ => none

/-- The non-missing numeric entries of a column. -/
def numVals (cs : List Cell) : List ℚ :=
  cs.filterMap (fun c => match c with | .num q => some q | _ => none)

/-- Models `Series.mean()`: arithmetic mean of the non-missing entries; `none`
(pandas `NaN`) when every entry is missing. -/
def colMean (cs : List Cell) : Option ℚ :=
  let vs := numVals cs
  if vs.isEmpty then none else some (vs.sum / vs.length)

/-- An in-memory table: ordered column names and rows of cells
(`pandas.DataFrame`). -/
structure Table where
  cols : List String
  rows : List (List Cell)
deriving DecidableEq, Repr

/-- First index of a column name, if present. -/
def findIdx : String → List String → Option ℕ
  | _, [] => none
  | n, c :: cs => if c = n then some 0 else (findIdx n cs).map (· + 1)

/-- Index of a named column. -/
def Table.colIdx (t : Table) (n : String) : Option ℕ :=
  findIdx n t.cols

/-- Models `df[name]`: the named column as a list of cells, `none` on a missing
column (pandas `KeyError`).  Cells beyond a row's length read as missing. -/
def Table.col (t : Table) (n : String) : Option (List Cell) :=
  (t.colIdx n).map (fun j => t.rows.map (fun r => r.getD j .na))

/-- Models `df[name] = cs`: replace the named column, or append a new one. -/
def Table.setCol (t : Table) (n : String) (cs : List Cell) : Table :=
  match t.colIdx n with
  | some j => { t with rows := (t.rows.zip cs).map (fun p => p.1.set j p.2) }
  | none => { cols := t.cols ++ [n],
              rows := (t.rows.zip cs).map (fun p => p.1 ++ [p.2]) }

/-- Models `df[name] = pd.to_numeric(df[name], errors="coerce")`: coerce one
column in place; `none` when the column is absent (`KeyError`). -/
def coerceCol (t : Table) (n : String) : Option Table :=
  (t.col n).map (fun cs => t.setCol n (cs.map toNumericCell))

/-- Mean of a column after numeric coercion, as computed by the Overview
KPI tiles: `none` on a missing column, `some none` when the coerced
column is all-missing. -/
def kpiMean (t : Table) (n : String) : Option (Option ℚ) :=
  (t.col n).map (fun cs => colMean (cs.map toNumericCell))

/-! ## Dataset loader (`load_data`, lines 16-31; caller, lines 41-45) -/

/-- Why a `pd.read_csv` call fails: the file is missing
(`FileNotFoundError`, carrying the filename) or any other exception
(parse/shape error, carrying its message `str(e)`). -/
inductive ReadErr where
  | notFound (filename : String)
  | other (msg : String)
deriving DecidableEq, Repr

/-- The environment `load_data` runs in: the outcome of `pd.read_csv`
for each filename. -/
structure FS where
  read : String → Except ReadErr Table

/-- The six fixed CSV filenames, in the order `load_data` reads them. -/
def fileNames : List String :=
  ["xerpihan_combined_data.csv",
   "xerpihan_combined_data_with_growth.csv",
   "xerpihan_comprehensive_metrics.csv",
   "xerpihan_final_summary.csv",
   "xerpihan_financial_metrics.csv",
   "xerpihan_forecast_combined.csv"]

/-- The `st.error` message each except-branch of `load_data` displays. -/
def loadErrMsg : ReadErr → String
  | .notFound f =>
      "Error: File '" ++ f ++ "' tidak ditemukan. Pastikan semua file CSV ada di direktori yang benar."
  | .other m =>
      "Error saat memuat data: " ++ m ++ ". Periksa format file CSV dan pastikan kolom yang diharapkan ada."

/-- The six-component return value of `load_data`. -/
abbrev LoadTuple :=
  Option Table × Option Table × Option Table × Option Table × Option Table × Option Table

/-- Models `load_data()`: read the six CSVs in order inside one try; the first
failure aborts, displays one error message, and returns six `None`s. -/
def load_data (fs : FS) : LoadTuple × Option String :=
  match fs.read "xerpihan_combined_data.csv" with
  | .error e => ((none, none, none, none, none, none), some (loadErrMsg e))
  | .ok combined_data =>
    match fs.read "xerpihan_combined_data_with_growth.csv" with
    | .error e => ((none, none, none, none, none, none), some (loadErrMsg e))
    | .ok growth_data =>
      match fs.read "xerpihan_comprehensive_metrics.csv" with
      | .error e => ((none, none, none, none, none, none), some (loadErrMsg e))
      | .ok metrics =>
        match fs.read "xerpihan_final_summary.csv" with
        | .error e => ((none, none, none, none, none, none), some (loadErrMsg e))
        | .ok final_summary =>
          match fs.read "xerpihan_financial_metrics.csv" with
          | .error e => ((none, none, none, none, none, none), some (loadErrMsg e))
          | .ok financial_metrics =>
            match fs.read "xerpihan_forecast_combined.csv" with
            | .error e => ((none, none, none, none, none, none), some (loadErrMsg e))
            | .ok forecast_combined =>
              ((some combined_data, some growth_data, some metrics,
                some final_summary, some financial_metrics, some forecast_combined), none)

/-- The first failing read among the six, in read order. -/
def firstFailure (fs : FS) : Option ReadErr :=
  fileNames.findSome? (fun n =>
    match fs.read n with
    | .error e => some e
    | .ok _ => none)

/-- The caller's usability check (line 42): the page renders only when
`data[0] is not None`; otherwise `st.stop()` halts the script. -/
def appProceeds (fs : FS) : Bool :=
  (load_data fs).1.1.isSome

/-! ## Metric Presenter: the six loaded tables and the Overview page -/

/-- The six tables a page render works on (line 45). -/
structure TableSet where
  combined_data : Table
  growth_data : Table
  metrics : Table
  final_summary : Table
  financial_metrics : Table
  forecast_combined : Table
deriving DecidableEq, Repr

/-- Outcome of the Overview KPI block (lines 52-70): the three coerced
means (`none` = NaN) plus the NaN warning flag, or the caught
exception's message slot. -/
inductive KpiResult where
  | ok (revenueCagr ebitdaMargin costToRevenue : Option ℚ) (warned : Bool)
  | err (missingCol : String)
deriving DecidableEq, Repr

/-- Does a coerced column contain a missing entry (`isnull().any()`)? -/
def hasNa (cs : List Cell) : Bool :=
  cs.any (fun c => c = .na)

/-- The Overview KPI block: coerce the three metric columns in place in
order, warn if any coerced entry is null, then show the three means.  A
missing column raises `KeyError` at its read, caught by the surrounding
except; earlier columns stay mutated.  Returns the slot outcome and the
`metrics` table as left behind. -/
def kpiSlot (metrics : Table) : KpiResult × Table :=
  match coerceCol metrics "Revenue_CAGR" with
  | none => (.err "Revenue_CAGR", metrics)
  | some m1 =>
    match coerceCol m1 "Avg_EBITDA_Margin" with
    | none => (.err "Avg_EBITDA_Margin", m1)
    | some m2 =>
      match coerceCol m2 "Cost_to_Revenue" with
      | none => (.err "Cost_to_Revenue", m2)
      | some m3 =>
        let c1 := (m3.col "Revenue_CAGR").getD []
        let c2 := (m3.col "Avg_EBITDA_Margin").getD []
        let c3 := (m3.col "Cost_to_Revenue").getD []
        (.ok (colMean c1) (colMean c2) (colMean c3)
          (hasNa c1 || hasNa c2 || hasNa c3), m3)

/-- Models `df[df["Category"] == cat]`: keep the rows whose `Category` cell is
the string `cat`; `none` when the `Category` column is absent
(`KeyError`). -/
def filterCategory (t : Table) (cat : String) : Option Table :=
  (t.colIdx "Category").map (fun j =>
    { t with rows := t.rows.filter (fun r => r.getD j .na = .str cat) })

/-- Models `[str(year) for year in range(2024, 2032)]`. -/
def yearCols : List String :=
  (List.range 8).map (fun i => toString (2024 + i))

/-- Outcome of a revenue-trend slot (Overview lines 74-86, Forecasting
lines 207-219): the missing-category error, the missing-year-columns
error, the chart slice, or a caught exception (e.g. no `Category`
column at all). -/
inductive TrendResult where
  | missingCategory
  | missingYears
  | chart (slice : Table)
  | exn
deriving DecidableEq, Repr

/-- The revenue-trend computation shared by the Overview and Forecasting
pages: filter by `Category == "Pendapatan"`, report empty result, check
the eight year columns, then build the line-chart slice. -/
def revenueTrend (t : Table) : TrendResult :=
  match filterCategory t "Pendapatan" with
  | none => .exn
  | some d =>
      if d.rows.isEmpty then .missingCategory
      else if yearCols.all (fun y => d.cols.contains y) then .chart d
      else .missingYears

/-! ## Substring test, melt, and the remaining page slots -/

/-- Python's `needle in hay` on strings: substring containment. -/
def hasSubstr (needle : List Char) : List Char → Bool
  | [] => needle.isEmpty
  | c :: t => needle.isPrefixOf (c :: t) || hasSubstr needle t

/-- The `String`-level substring containment. -/
def strContains (hay needle : String) : Bool :=
  hasSubstr needle.toList hay.toList

/-- Models `df.melt(id_vars=[idVar], value_vars=vs, var_name=vn, value_name=valn)`:
wide-to-long reshape.  For each value column in order, one output row per
input row carrying the id cell, the column name, and the value; `none`
when the id column or a value column is absent (`KeyError`). -/
def melt (t : Table) (idVar : String) (vs : List String)
    (vn valn : String) : Option Table := do
  let j ← t.colIdx idVar
  let blocks ← vs.mapM (fun v => do
    let k ← t.colIdx v
    pure (t.rows.map (fun r => [r.getD j Cell.na, Cell.str v, r.getD k Cell.na])))
  pure { cols := [idVar, vn, valn], rows := blocks.flatten }

/-- Outcome of the Forecasting growth-analysis slot (lines 222-230). -/
inductive GrowthResult where
  | noGrowthCols
  | chart (longForm : Table)
  | exn
deriving DecidableEq, Repr

/-- Models `[col for col in growth_data.columns if "Growth" in col]`. -/
def growthCols (t : Table) : List String :=
  t.cols.filter (fun c => strContains c "Growth")

/-- The Forecasting growth-analysis slot: discover the growth columns,
report when none exist, else reshape to long form for the box chart
(a missing `Scenario` id column raises, caught by the except). -/
def growthSlot (growth_data : Table) : GrowthResult :=
  let gcols := growthCols growth_data
  if gcols.isEmpty then .noGrowthCols
  else
    match melt growth_data "Scenario" gcols "variable" "value" with
    | none => .exn
    | some long => .chart long

/-- Outcome of the Risk Analysis volatility slot: the grouped-bar slice,
or the name of the missing column reported by the `KeyError` handler. -/
inductive VolResult where
  | chart (risk_data : Table)
  | err (missingCol : String)
deriving DecidableEq, Repr

/-- The Risk Analysis volatility slot (lines 143-155): build
`risk_data` from three named columns of `metrics`; a missing column
raises `KeyError`, caught and reported with the column's name. -/
def riskVolSlot (metrics : Table) : VolResult :=
  match metrics.col "Scenario" with
  | none => .err "Scenario"
  | some sc =>
    match metrics.col "Revenue_Volatility" with
    | none => .err "Revenue_Volatility"
    | some rv =>
      match metrics.col "Margin_Volatility" with
      | none => .err "Margin_Volatility"
      | some mv =>
        .chart { cols := ["Scenario", "Revenue_Volatility", "Margin_Volatility"],
                 rows := (sc.zip (rv.zip mv)).map (fun p => [p.1, p.2.1, p.2.2]) }

/-- The static risk-decomposition table (lines 160-165). -/
def riskComponents : Table :=
  { cols := ["Scenario", "Market_Risk", "Credit_Risk", "Operational_Risk"],
    rows := [[.str "Optimistic", .num (15/100), .num (8/100), .num (5/100)],
             [.str "Moderate", .num (12/100), .num (7/100), .num (4/100)],
             [.str "Pessimistic", .num (10/100), .num (6/100), .num (3/100)]] }

/-- The Risk Analysis decomposition slot (lines 158-170): melt the static
table for the stacked bar chart. -/
def riskDecompSlot : Option Table :=
  melt riskComponents "Scenario" ["Market_Risk", "Credit_Risk", "Operational_Risk"]
    "Risk_Type" "Risk_Level"

/-- The five dataset names offered by the Overview exploration selectbox
(line 98); the forecast table is not among them. -/
def exploreOptions : List String :=
  ["Combined Data", "Growth Data", "Metrics", "Final Summary", "Financial Metrics"]

/-- The `datasets` dict of line 99, keyed in insertion order.  The
`metrics` argument is the table as the page holds it at that point. -/
def exploreDatasets (combined_data growth_data metrics final_summary
    financial_metrics : Table) : List (String × Table) :=
  [("Combined Data", combined_data), ("Growth Data", growth_data),
   ("Metrics", metrics), ("Final Summary", final_summary),
   ("Financial Metrics", financial_metrics)]

/-! ## CSV export (`to_csv(index=False)`) and re-parse (`read_csv`) -/

/-- How a cell serialises: strings verbatim, missing as empty, rationals
as `num` or `num/den` (any injective comma-free rendering carries the
round-trip claim's string-for-numeric tolerance). -/
def cellStr : Cell → String
  | .str s => s
  | .na => ""
  | .num q => if q.den = 1 then toString q.num
              else toString q.num ++ "/" ++ toString q.den

/-- Join chunks with a separator character. -/
def joinSep (sep : Char) : List (List Char) → List Char
  | [] => []
  | [x] => x
  | x :: y :: xs => x ++ sep :: joinSep sep (y :: xs)

/-- Split on a separator character; always returns at least one chunk. -/
def splitOnC (sep : Char) : List Char → List (List Char)
  | [] => [[]]
  | c :: cs =>
    match splitOnC sep cs with
    | [] => [[]]
    | t :: ts => if c = sep then [] :: t :: ts else (c :: t) :: ts

/-- Render lines, each terminated by a newline (pandas line terminator). -/
def linesJoin (ls : List (List Char)) : List Char :=
  ls.flatMap (fun l => l ++ ['\n'])

/-- Models `df.to_csv(index=False)`: a header line of the column names followed
by one comma-joined line per row, no index column. -/
def toCsv (t : Table) : String :=
  (linesJoin (joinSep ',' (t.cols.map String.toList) ::
    t.rows.map (fun r => joinSep ',' (r.map (fun c => (cellStr c).toList))))).asString

/-- Models `pd.read_csv` on exported text, to the string-table level: split into
lines (blank lines skipped, as pandas does), take the first as the
header, split every line on commas; `none` on empty input
(`EmptyDataError`). -/
def parseCsv (s : String) : Option (List String × List (List String)) :=
  match (splitOnC '\n' s.toList).filter (fun l => !l.isEmpty) with
  | [] => none
  | header :: rest =>
      some ((splitOnC ',' header).map List.asString,
            rest.map (fun l => (splitOnC ',' l).map List.asString))

/-! ## Page renders -/

/-- Everything the Overview page computes (lines 48-100): the KPI tiles,
the revenue-trend chart, the two CSV downloads, and the exploration
dict; plus the table set as left behind (the KPI block mutates
`metrics` in place). -/
structure OverviewResult where
  kpi : KpiResult
  trend : TrendResult
  downloads : String × String
  explore : List (String × Table)
deriving DecidableEq, Repr

/-- One render of the Overview page.  Each block is wrapped in its own
try/except (or cannot raise), so every slot produces an outcome. -/
def overviewPage (ts : TableSet) : OverviewResult × TableSet :=
  let km := kpiSlot ts.metrics
  (⟨km.1,
    revenueTrend ts.combined_data,
    (toCsv ts.financial_metrics, toCsv ts.final_summary),
    exploreDatasets ts.combined_data ts.growth_data km.2
      ts.final_summary ts.financial_metrics⟩,
   { ts with metrics := km.2 })

/-- Everything the Risk Analysis page computes (lines 139-170). -/
structure RiskResult where
  vol : VolResult
  decomp : Option Table
deriving DecidableEq, Repr

/-- One render of the Risk Analysis page; both blocks have their own
try/except. -/
def riskPage (ts : TableSet) : RiskResult :=
  ⟨riskVolSlot ts.metrics, riskDecompSlot⟩

/-- Everything the Forecasting page computes (lines 203-230). -/
structure ForecastResult where
  trend : TrendResult
  growth : GrowthResult
deriving DecidableEq, Repr

/-- One render of the Forecasting page; both blocks have their own
try/except. -/
def forecastPage (ts : TableSet) : ForecastResult :=
  ⟨revenueTrend ts.forecast_combined, growthSlot ts.growth_data⟩

/-- Select named columns as a chart slice (the column accesses a
`px.bar`/`px.line` call performs); `none` when any column is absent —
the raised `KeyError` is caught by the block's except. -/
def selectCols (t : Table) (ns : List String) : Option Table := do
  let js ← ns.mapM t.colIdx
  pure { cols := ns, rows := t.rows.map (fun r => js.map (fun j => r.getD j Cell.na)) }

/-- Does the column at index `j` hold no raw string (pandas gives such a
column a numeric dtype; strings make it `object`)? -/
def colHasNoStr (t : Table) (j : ℕ) : Bool :=
  (t.rows.map (fun r => r.getD j Cell.na)).all
    (fun c => match c with | Cell.str _ => false | _ => true)

/-- Models `df.select_dtypes(include=[np.number]).columns`: the names of
the numeric-dtype columns, in column order. -/
def numericCols (t : Table) : List String :=
  (t.cols.enum.filter (fun p => colHasNoStr t p.1)).map Prod.snd

/-- Outcome of the Financial Analysis custom-visualization slot
(lines 122-136): the missing-numeric-columns report, or the numeric
columns offered as axis choices for the scatter. -/
inductive CustomVizResult where
  | noNumericCols
  | chart (axisOptions : List String)
deriving DecidableEq, Repr

/-- The custom-visualization slot: discover the numeric columns; report
when there are none, else offer them as the scatter's axis options. -/
def customVizSlot (financial_metrics : Table) : CustomVizResult :=
  let ncols := numericCols financial_metrics
  if ncols.isEmpty then .noNumericCols else .chart ncols

/-- Everything the Financial Analysis page computes (lines 103-136):
the grouped-bar slice, the growth-line slice (each `none` when a caught
exception spoiled it), and the custom-visualization outcome. -/
structure FinancialResult where
  metricsBar : Option Table
  growthLine : Option Table
  custom : CustomVizResult
deriving DecidableEq, Repr

/-- One render of the Financial Analysis page; each block has its own
try/except. -/
def financialPage (ts : TableSet) : FinancialResult :=
  ⟨selectCols ts.financial_metrics
      ["Scenario", "Revenue_CAGR", "Avg_EBITDA_Margin", "Avg_Net_Margin"],
   selectCols ts.final_summary ["Scenario", "Revenue_CAGR", "EBITDA_CAGR"],
   customVizSlot ts.financial_metrics⟩

/-- The static allocation-weight table (lines 178-183). -/
def portfolio_data : Table :=
  { cols := ["Method", "Optimistic", "Moderate", "Pessimistic"],
    rows := [[.str "HJB", .num 1, .num 0, .num 0],
             [.str "Markowitz", .num (333/1000), .num (333/1000), .num (333/1000)],
             [.str "Black-Litterman", .num (407/1000), .num (407/1000), .num (296/1000)],
             [.str "RL", .num (55/1000), .num (775/1000), .num (170/1000)]] }

/-- The static performance-metric table (lines 192-196). -/
def performance_data : Table :=
  { cols := ["Method", "Expected_Return", "Sharpe_Ratio"],
    rows := [[.str "HJB", .num (1854/10000), .num (1017 * 10 ^ 12)],
             [.str "Markowitz", .num (1400/10000), .num (1985 * 10 ^ 12)],
             [.str "Black-Litterman", .num (786/10000), .num (3679 * 10 ^ 11)],
             [.str "RL", .num (1348/10000), .num (1746 * 10 ^ 12)]] }

/-- Everything the Portfolio Optimization page computes (lines
172-200): the melted allocation chart and the performance scatter, both
built from static tables. -/
structure PortfolioResult where
  allocation : Option Table
  performance : Table
deriving DecidableEq, Repr

/-- One render of the Portfolio Optimization page. -/
def portfolioPage : PortfolioResult :=
  ⟨melt portfolio_data "Method" ["Optimistic", "Moderate", "Pessimistic"]
      "Scenario" "Weight",
   performance_data⟩

/-! ## Concrete fixtures for witnesses and counterexamples -/

/-- A table with no columns and no rows. -/
def emptyTable : Table := ⟨[], []⟩

/-- An environment whose first CSV parses and whose second raises a
generic parse exception with message `"bad"`. -/
def fsParseFail : FS :=
  ⟨fun n => if n = "xerpihan_combined_data.csv" then .ok emptyTable
            else .error (.other "bad")⟩

/-- An environment in which every CSV is missing. -/
def fsNotFound : FS :=
  ⟨fun n => .error (.notFound n)⟩

/-- An environment in which every CSV parses (to the empty table). -/
def fsAllOk : FS :=
  ⟨fun _ => .ok emptyTable⟩

/-- A metrics table holding the three KPI columns with one non-numeric
entry, so the Overview KPI block rewrites it (the token coerces to the
missing value). -/
def metricsMut : Table :=
  ⟨["Scenario", "Revenue_CAGR", "Avg_EBITDA_Margin", "Cost_to_Revenue"],
   [[.str "Optimistic", .str "abc", .num 8, .num 1]]⟩

/-- A table set exercising the Overview page's in-place coercion. -/
def tsMut : TableSet :=
  ⟨emptyTable, emptyTable, metricsMut, emptyTable, emptyTable, emptyTable⟩

/-- A table set whose `metrics` table has none of the required columns,
so the KPI and volatility slots both fail. -/
def tsEmpty : TableSet :=
  ⟨emptyTable, emptyTable, emptyTable, emptyTable, emptyTable, emptyTable⟩

/-- A one-row table whose only category is not `"Pendapatan"`. -/
def tNoRevenue : Table :=
  ⟨["Scenario", "Category"], [[.str "Optimistic", .str "Biaya"]]⟩

/-- A table with a `"Pendapatan"` row but none of the year columns. -/
def tRevenueNoYears : Table :=
  ⟨["Scenario", "Category"], [[.str "Optimistic", .str "Pendapatan"]]⟩

/-- A table set on which each expected data-shape problem fires: no
`"Pendapatan"` row in the combined data, no KPI or volatility columns
in `metrics`, no numeric columns in the financial metrics, and no year
columns in the forecast. -/
def tsFail : TableSet :=
  ⟨tNoRevenue, emptyTable, emptyTable, emptyTable, emptyTable, tRevenueNoYears⟩

/-- The growth-discovery example table of the spec's scenario. -/
def tGrowthExample : Table :=
  ⟨["Scenario", "Revenue_Growth", "EBITDA_Growth", "Notes"], []⟩

/-- A two-scenario financial-metrics table with exact decimal CAGRs. -/
def tMetricsExample : Table :=
  ⟨["Scenario", "Revenue_CAGR"],
   [[.str "Optimistic", .num (25/2)], [.str "Moderate", .num 8]]⟩

/-- A small all-string table for exercising the CSV round trip. -/
def tCsvExample : Table :=
  ⟨["Scenario", "Category"],
   [[.str "Optimistic", .str "Pendapatan"], [.str "Moderate", .str "Biaya"]]⟩

/-! ## Helper lemmas -/

/-- The test `hasSubstr` decides substring containment. -/
theorem hasSubstr_iff (needle hay : List Char) :
    hasSubstr needle hay = true ↔ needle <:+: hay := by
  induction hay with
  | nil =>
      simp [hasSubstr, List.isEmpty_iff, List.infix_nil]
  | cons c t ih =>
      simp [hasSubstr, List.infix_cons_iff, ih]

/-- A chunk is a substring of any concatenation around it. -/
theorem strContains_append (a b n : String) :
    strContains (a ++ n ++ b) n = true := by
  have h1 : (a ++ n ++ b).toList = a.toList ++ n.toList ++ b.toList := by
    show (a ++ n ++ b).data = a.data ++ n.data ++ b.data
    simp [String.data_append]
  simp only [strContains, hasSubstr_iff, h1]
  exact List.infix_append _ _ _

/-- The finder `findIdx` returns an index holding the sought name. -/
theorem findIdx_get? {n : String} {cs : List String} {j : ℕ}
    (h : findIdx n cs = some j) : cs.get? j = some n := by
  induction cs generalizing j with
  | nil => simp [findIdx] at h
  | cons c cs ih =>
      by_cases hc : c = n
      · simp [findIdx, hc] at h
        subst hc
        simp [← h]
      · simp [findIdx, hc] at h
        obtain ⟨k, hk, rfl⟩ := h
        simpa using ih hk

/-- Distinct names occupy distinct column indices. -/
theorem findIdx_ne {m n : String} {cs : List String} {j k : ℕ}
    (hmn : m ≠ n) (hj : findIdx m cs = some j) (hk : findIdx n cs = some k) :
    j ≠ k := by
  intro h
  subst h
  exact hmn (Option.some.inj ((findIdx_get? hj).symm.trans (findIdx_get? hk)))

/-- Setting one coordinate of each row leaves every other coordinate's
column reading unchanged, provided the new column matches the row count. -/
theorem zip_set_getD (rs : List (List Cell)) (cs : List Cell) (j k : ℕ)
    (hjk : j ≠ k) (hl : rs.length ≤ cs.length) :
    ((rs.zip cs).map (fun p => p.1.set j p.2)).map (fun r => r.getD k .na)
      = rs.map (fun r => r.getD k .na) := by
  induction rs generalizing cs with
  | nil => simp
  | cons r rs ih =>
      cases cs with
      | nil => simp at hl
      | cons c cs =>
          simp only [List.zip_cons_cons, List.map_cons, List.cons.injEq]
          refine ⟨?_, ih cs (by simpa using hl)⟩
          simp [List.getD, List.getElem?_set_ne hjk]

/-- In-place coercion of one column (`coerceCol`) keeps the column list
and leaves every other column unchanged. -/
theorem coerceCol_frame {t t' : Table} {n : String}
    (h : coerceCol t n = some t') :
    t'.cols = t.cols ∧ ∀ m, m ≠ n → t'.col m = t.col m := by
  simp only [coerceCol, Table.col, Option.map_eq_some'] at h
  obtain ⟨cs, hcs, rfl⟩ := h
  simp only [Table.colIdx, Option.map_eq_some'] at hcs
  obtain ⟨j, hj, rfl⟩ := hcs
  constructor
  · simp [Table.setCol, Table.colIdx, hj]
  · intro m hm
    simp only [Table.col, Table.colIdx, Table.setCol, hj]
    cases hk : findIdx m t.cols with
    | none => simp
    | some k =>
        simp only [Option.map_some']
        have hjk : j ≠ k := findIdx_ne (Ne.symm hm) hj hk
        congr 1
        exact zip_set_getD t.rows _ j k hjk (by simp)

/-- The spine of `kpiSlot`: whatever branch is taken, the column list is
kept and the non-KPI columns are untouched. -/
theorem kpiSlot_frame (metrics : Table) :
    (kpiSlot metrics).2.cols = metrics.cols ∧
    ∀ m, m ≠ "Revenue_CAGR" → m ≠ "Avg_EBITDA_Margin" → m ≠ "Cost_to_Revenue" →
      (kpiSlot metrics).2.col m = metrics.col m := by
  unfold kpiSlot
  cases h1 : coerceCol metrics "Revenue_CAGR" with
  | none => simp [h1]
  | some m1 =>
      obtain ⟨hc1, hf1⟩ := coerceCol_frame h1
      cases h2 : coerceCol m1 "Avg_EBITDA_Margin" with
      | none =>
          exact ⟨by simp [h2, hc1], fun m hm _ _ => by simp [h2, hf1 m hm]⟩
      | some m2 =>
          obtain ⟨hc2, hf2⟩ := coerceCol_frame h2
          cases h3 : coerceCol m2 "Cost_to_Revenue" with
          | none =>
              exact ⟨by simp [h2, h3, hc2, hc1],
                fun m hm hm2 _ => by simp [h2, h3, (hf2 m hm2).trans (hf1 m hm)]⟩
          | some m3 =>
              obtain ⟨hc3, hf3⟩ := coerceCol_frame h3
              exact ⟨by simp [h2, h3, hc3, hc2, hc1],
                fun m hm hm2 hm3 => by
                  simp [h2, h3, ((hf3 m hm3).trans (hf2 m hm2)).trans (hf1 m hm)]⟩

/-- The numeric entries of a coerced column are exactly the coercible
entries of the original. -/
theorem numVals_map_toNumericCell (cs : List Cell) :
    numVals (cs.map toNumericCell) = cs.filterMap coerces := by
  simp only [numVals, List.filterMap_map]
  rfl

/-- Coercion `toNumericCell` never returns a raw string. -/
theorem toNumericCell_na_or_num (c : Cell) :
    toNumericCell c = .na ∨ ∃ q, toNumericCell c = .num q := by
  cases c with
  | num q => exact Or.inr ⟨q, rfl⟩
  | na => exact Or.inl rfl
  | str s =>
      cases h : parseDec s with
      | none => exact Or.inl (by simp [toNumericCell, h])
      | some q => exact Or.inr ⟨q, by simp [toNumericCell, h]⟩

/-- The error message `load_data` displays is the message of the first
failing read, in file order. -/
theorem load_data_snd (fs : FS) :
    (load_data fs).2 = (firstFailure fs).map loadErrMsg := by
  unfold load_data firstFailure fileNames
  cases h1 : fs.read "xerpihan_combined_data.csv" with
  | error e => simp [List.findSome?, h1]
  | ok t1 =>
    cases h2 : fs.read "xerpihan_combined_data_with_growth.csv" with
    | error e => simp [List.findSome?, h1, h2]
    | ok t2 =>
      cases h3 : fs.read "xerpihan_comprehensive_metrics.csv" with
      | error e => simp [List.findSome?, h1, h2, h3]
      | ok t3 =>
        cases h4 : fs.read "xerpihan_final_summary.csv" with
        | error e => simp [List.findSome?, h1, h2, h3, h4]
        | ok t4 =>
          cases h5 : fs.read "xerpihan_financial_metrics.csv" with
          | error e => simp [List.findSome?, h1, h2, h3, h4, h5]
          | ok t5 =>
            cases h6 : fs.read "xerpihan_forecast_combined.csv" with
            | error e => simp [List.findSome?, h1, h2, h3, h4, h5, h6]
            | ok t6 => simp [List.findSome?, h1, h2, h3, h4, h5, h6]

/-- Loading either succeeds on all six components or fails on all
six, with the error message exactly on failure. -/
theorem load_data_dichotomy (fs : FS) :
    (∃ t1 t2 t3 t4 t5 t6, (load_data fs) =
        ((some t1, some t2, some t3, some t4, some t5, some t6), none))
    ∨ ∃ m, (load_data fs) = ((none, none, none, none, none, none), some m) := by
  unfold load_data
  cases h1 : fs.read "xerpihan_combined_data.csv" with
  | error e => exact Or.inr ⟨_, rfl⟩
  | ok t1 =>
    cases h2 : fs.read "xerpihan_combined_data_with_growth.csv" with
    | error e => exact Or.inr ⟨_, rfl⟩
    | ok t2 =>
      cases h3 : fs.read "xerpihan_comprehensive_metrics.csv" with
      | error e => exact Or.inr ⟨_, rfl⟩
      | ok t3 =>
        cases h4 : fs.read "xerpihan_final_summary.csv" with
        | error e => exact Or.inr ⟨_, rfl⟩
        | ok t4 =>
          cases h5 : fs.read "xerpihan_financial_metrics.csv" with
          | error e => exact Or.inr ⟨_, rfl⟩
          | ok t5 =>
            cases h6 : fs.read "xerpihan_forecast_combined.csv" with
            | error e => exact Or.inr ⟨_, rfl⟩
            | ok t6 => exact Or.inl ⟨t1, t2, t3, t4, t5, t6, rfl⟩

/-! ## CSV split/join lemmas -/

/-- Splitting `splitOnC` never returns the empty list of chunks. -/
theorem splitOnC_ne_nil (sep : Char) (l : List Char) :
    splitOnC sep l ≠ [] := by
  induction l with
  | nil => simp [splitOnC]
  | cons c cs ih =>
      simp only [splitOnC]
      cases h : splitOnC sep cs with
      | nil => simp
      | cons t ts =>
          by_cases hc : c = sep <;> simp [hc]

/-- Splitting a separator-free chunk yields just that chunk. -/
theorem splitOnC_no_sep {sep : Char} {l : List Char} (h : sep ∉ l) :
    splitOnC sep l = [l] := by
  induction l with
  | nil => rfl
  | cons c cs ih =>
      have hc : c ≠ sep := fun e => h (e ▸ List.mem_cons_self c cs)
      have hcs : sep ∉ cs := fun e => h (List.mem_cons_of_mem c e)
      simp [splitOnC, ih hcs, hc]

/-- Splitting past a separator-free prefix peels it off. -/
theorem splitOnC_append {sep : Char} {x : List Char} (r : List Char)
    (h : sep ∉ x) : splitOnC sep (x ++ sep :: r) = x :: splitOnC sep r := by
  induction x with
  | nil =>
      simp only [List.nil_append, splitOnC]
      cases hr : splitOnC sep r with
      | nil => exact absurd hr (splitOnC_ne_nil sep r)
      | cons t ts => simp
  | cons c cs ih =>
      have hc : c ≠ sep := fun e => h (e ▸ List.mem_cons_self c cs)
      have hcs : sep ∉ cs := fun e => h (List.mem_cons_of_mem c e)
      rw [List.cons_append, splitOnC, ih hcs]
      simp [hc]

/-- Splitting inverts joining for separator-free chunks. -/
theorem splitOnC_joinSep {sep : Char} {xss : List (List Char)}
    (hne : xss ≠ []) (h : ∀ x ∈ xss, sep ∉ x) :
    splitOnC sep (joinSep sep xss) = xss := by
  induction xss with
  | nil => exact absurd rfl hne
  | cons x xss ih =>
      cases xss with
      | nil => exact splitOnC_no_sep (h x (List.mem_cons_self x []))
      | cons y yss =>
          have hx : sep ∉ x := h x (List.mem_cons_self _ _)
          calc splitOnC sep (joinSep sep (x :: y :: yss))
              = splitOnC sep (x ++ sep :: joinSep sep (y :: yss)) := by
                simp [joinSep]
            _ = x :: splitOnC sep (joinSep sep (y :: yss)) :=
                splitOnC_append _ hx
            _ = x :: (y :: yss) := by
                rw [ih (by simp) (fun z hz => h z (List.mem_cons_of_mem x hz))]

/-- Every character of a join is the separator or from some chunk. -/
theorem mem_joinSep {sep c : Char} {xss : List (List Char)}
    (h : c ∈ joinSep sep xss) : c = sep ∨ ∃ x ∈ xss, c ∈ x := by
  induction xss with
  | nil => simp [joinSep] at h
  | cons x xss ih =>
      cases xss with
      | nil =>
          simp only [joinSep] at h
          exact Or.inr ⟨x, List.mem_cons_self _ _, h⟩
      | cons y yss =>
          simp only [joinSep, List.mem_append, List.mem_cons] at h
          rcases h with hx | rfl | hrest
          · exact Or.inr ⟨x, List.mem_cons_self _ _, hx⟩
          · exact Or.inl rfl
          · rcases ih hrest with hs | ⟨z, hz, hcz⟩
            · exact Or.inl hs
            · exact Or.inr ⟨z, List.mem_cons_of_mem x hz, hcz⟩

/-- A join of chunks whose head is nonempty is nonempty. -/
theorem joinSep_ne_nil {sep : Char} {x : List Char} (xs : List (List Char))
    (hx : x ≠ []) : joinSep sep (x :: xs) ≠ [] := by
  cases xs with
  | nil => simpa [joinSep] using hx
  | cons y ys => simp [joinSep]

/-- Splitting line-joined text on the newline recovers the lines, plus
one empty trailing chunk. -/
theorem splitOnC_linesJoin {ls : List (List Char)}
    (h : ∀ l ∈ ls, '\n' ∉ l) :
    splitOnC '\n' (linesJoin ls) = ls ++ [[]] := by
  induction ls with
  | nil => rfl
  | cons l ls ih =>
      have hl : '\n' ∉ l := h l (List.mem_cons_self _ _)
      calc splitOnC '\n' (linesJoin (l :: ls))
          = splitOnC '\n' (l ++ '\n' :: linesJoin ls) := by
            simp [linesJoin]
        _ = l :: splitOnC '\n' (linesJoin ls) := splitOnC_append _ hl
        _ = l :: (ls ++ [[]]) := by
            rw [ih (fun z hz => h z (List.mem_cons_of_mem l hz))]
        _ = (l :: ls) ++ [[]] := rfl

/-- Conversions `toList` after `asString` cancel. -/
theorem toList_asString (l : List Char) : (List.asString l).toList = l := rfl

/-- Conversions `asString` after `toList` cancel. -/
theorem asString_toList (s : String) : (s.toList).asString = s := rfl

/-- A cell fails to coerce exactly when its coercion is the missing
value. -/
theorem coerces_none_iff (c : Cell) :
    coerces c = none ↔ toNumericCell c = Cell.na := by
  rcases toNumericCell_na_or_num c with h | ⟨q, h⟩ <;> simp [coerces, h]

/-- A cell coerces to `q` exactly when its coercion is the number `q`. -/
theorem coerces_some_iff (c : Cell) (q : ℚ) :
    coerces c = some q ↔ toNumericCell c = Cell.num q := by
  rcases toNumericCell_na_or_num c with h | ⟨p, h⟩ <;> simp [coerces, h]

/-- With a `Category` column present but no row carrying the sought
category, the revenue-trend slot reports the missing-category
condition over an empty slice. -/
theorem revenueTrend_eq_missingCategory {t : Table} {j : ℕ}
    (hj : t.colIdx "Category" = some j)
    (hnone : ∀ r ∈ t.rows, r.getD j Cell.na ≠ Cell.str "Pendapatan") :
    revenueTrend t = TrendResult.missingCategory
    ∧ ∃ d, filterCategory t "Pendapatan" = some d ∧ d.rows = [] := by
  have hemp : t.rows.filter
      (fun r => r.getD j Cell.na = Cell.str "Pendapatan") = [] :=
    List.filter_eq_nil_iff.mpr (fun r hr => by simpa using hnone r hr)
  have hd : filterCategory t "Pendapatan" = some { t with rows := [] } := by
    unfold filterCategory
    rw [hj, Option.map_some', hemp]
  constructor
  · unfold revenueTrend
    rw [hd]
    simp
  · exact ⟨_, hd, rfl⟩

/-- With matching rows present but a year column absent, the
revenue-trend slot reports the missing-year-columns condition. -/
theorem revenueTrend_eq_missingYears {t d : Table}
    (hd : filterCategory t "Pendapatan" = some d) (hne : d.rows ≠ [])
    (hmiss : ∃ y ∈ yearCols, d.cols.contains y = false) :
    revenueTrend t = TrendResult.missingYears := by
  unfold revenueTrend
  rw [hd]
  dsimp only
  rw [if_neg (by simpa [List.isEmpty_iff] using hne)]
  obtain ⟨y, hy, hyc⟩ := hmiss
  have hall : ¬(yearCols.all fun z => d.cols.contains z) = true := by
    intro hall
    rw [List.all_eq_true.mp hall y hy] at hyc
    cases hyc
  rw [if_neg hall]

/-- With the `Revenue_CAGR` column absent, the KPI block fails at its
first column read, reports that column, and leaves `metrics` as is. -/
theorem kpiSlot_err_revenue {metrics : Table}
    (h : metrics.col "Revenue_CAGR" = none) :
    kpiSlot metrics = (KpiResult.err "Revenue_CAGR", metrics) := by
  have hc : coerceCol metrics "Revenue_CAGR" = none := by
    simp [coerceCol, h]
  unfold kpiSlot
  rw [hc]

/-- With the `Scenario` column absent, the volatility slot reports that
column. -/
theorem riskVolSlot_err_scenario {metrics : Table}
    (h : metrics.col "Scenario" = none) :
    riskVolSlot metrics = VolResult.err "Scenario" := by
  unfold riskVolSlot
  rw [h]

/-! ## Claim theorems -/

/-- C7: exporting a table with `to_csv(index=False)` (header present, no
index column) and re-parsing the text yields the same column names, the
same row count, and the same values up to string-for-numeric tolerance
(cells compared through their serialisation `cellStr`), for every table
whose shape is that of a loaded CSV: at least one column, rectangular
rows, and names/serialised cells that are nonempty and free of the
delimiter and line terminator. -/
theorem to_csv_round_trip (t : Table)
    (hcols : t.cols ≠ [])
    (hname : ∀ n ∈ t.cols, n.toList ≠ [] ∧ ',' ∉ n.toList ∧ '\n' ∉ n.toList)
    (hcells : ∀ r ∈ t.rows, r.length = t.cols.length ∧
        ∀ c ∈ r, (cellStr c).toList ≠ [] ∧ ',' ∉ (cellStr c).toList ∧
          '\n' ∉ (cellStr c).toList) :
    parseCsv (toCsv t) = some (t.cols, t.rows.map (fun r => r.map cellStr)) := by
  obtain ⟨n0, ns, hn0⟩ : ∃ n0 ns, t.cols = n0 :: ns := by
    cases h : t.cols with
    | nil => exact absurd h hcols
    | cons a l => exact ⟨a, l, rfl⟩
  unfold parseCsv toCsv
  rw [toList_asString]
  set hdr := joinSep ',' (t.cols.map String.toList) with hhdr
  set rls := t.rows.map (fun r => joinSep ',' (r.map (fun c => (cellStr c).toList)))
    with hrls
  have hnl : ∀ l ∈ hdr :: rls, '\n' ∉ l := by
    intro l hl hmem
    rcases List.mem_cons.mp hl with rfl | hl
    · rcases mem_joinSep hmem with he | ⟨x, hx, hcx⟩
      · exact absurd he (by decide)
      · rcases List.mem_map.mp hx with ⟨n, hn, rfl⟩
        exact (hname n hn).2.2 hcx
    · rcases List.mem_map.mp hl with ⟨r, hr, rfl⟩
      rcases mem_joinSep hmem with he | ⟨x, hx, hcx⟩
      · exact absurd he (by decide)
      · rcases List.mem_map.mp hx with ⟨c, hc, rfl⟩
        exact ((hcells r hr).2 c hc).2.2 hcx
  have hne : ∀ l ∈ hdr :: rls, l ≠ [] := by
    intro l hl
    rcases List.mem_cons.mp hl with rfl | hl
    · rw [hhdr, hn0]
      simp only [List.map_cons]
      exact joinSep_ne_nil _ (by simpa using (hname n0 (by simp [hn0])).1)
    · rcases List.mem_map.mp hl with ⟨r, hr, rfl⟩
      obtain ⟨hlen, hcr⟩ := hcells r hr
      cases r with
      | nil => rw [hn0] at hlen; simp at hlen
      | cons c cr =>
          simp only [List.map_cons]
          exact joinSep_ne_nil _ (by simpa using (hcr c (by simp)).1)
  have hfin : (splitOnC '\n' (linesJoin (hdr :: rls))).filter
      (fun l => !l.isEmpty) = hdr :: rls := by
    rw [splitOnC_linesJoin hnl, List.filter_append]
    have h1 : (hdr :: rls).filter (fun l => !l.isEmpty) = hdr :: rls :=
      List.filter_eq_self.mpr (fun a ha => by
        simpa [List.isEmpty_iff] using hne a ha)
    have h2 : ([([] : List Char)]).filter (fun l => !l.isEmpty) = [] := rfl
    rw [h1, h2, List.append_nil]
  rw [hfin]
  have hh : (splitOnC ',' hdr).map List.asString = t.cols := by
    rw [hhdr, splitOnC_joinSep (by simp [hn0]) ?_]
    · rw [List.map_map]
      exact List.map_id'' (fun n => asString_toList n) t.cols
    · intro x hx hmem
      rcases List.mem_map.mp hx with ⟨n, hn, rfl⟩
      exact (hname n hn).2.1 hmem
  have hrw : rls.map (fun l => (splitOnC ',' l).map List.asString)
      = t.rows.map (fun r => r.map cellStr) := by
    rw [hrls, List.map_map]
    apply List.map_congr_left
    intro r hrr
    obtain ⟨hlen, hcr⟩ := hcells r hrr
    have hrne : r.map (fun c => (cellStr c).toList) ≠ [] := by
      intro e
      rw [List.map_eq_nil_iff.mp e, hn0] at hlen
      simp at hlen
    have hsp : splitOnC ',' (joinSep ',' (r.map (fun c => (cellStr c).toList)))
        = r.map (fun c => (cellStr c).toList) := by
      refine splitOnC_joinSep hrne ?_
      intro x hx hm
      rcases List.mem_map.mp hx with ⟨c, hc, rfl⟩
      exact (hcr c hc).2.1 hm
    simp only [Function.comp, hsp, List.map_map]
    exact List.map_congr_left (fun c _ => asString_toList (cellStr c))
  simp only [hh, hrw]

/-- C7 witness: the round trip evaluated on a concrete two-row table. -/
theorem to_csv_round_trip_witness :
    parseCsv (toCsv tCsvExample) =
      some (tCsvExample.cols, tCsvExample.rows.map (fun r => r.map cellStr)) :=
  to_csv_round_trip tCsvExample (by decide) (by decide) (by decide)

/-- C1 counterexample: with the first CSV present and the second
unparseable (`str(e) = "bad"`), `load_data` reports the generic
parse-error message, which does not name the failing file
`xerpihan_combined_data_with_growth.csv`. -/
theorem load_parse_error_names_no_file :
    fsParseFail.read "xerpihan_combined_data.csv" = Except.ok emptyTable
    ∧ fsParseFail.read "xerpihan_combined_data_with_growth.csv"
        = Except.error (ReadErr.other "bad")
    ∧ (load_data fsParseFail).2 = some (loadErrMsg (ReadErr.other "bad"))
    ∧ strContains (loadErrMsg (ReadErr.other "bad"))
        "xerpihan_combined_data_with_growth.csv" = false := by
  refine ⟨rfl, rfl, rfl, by decide⟩

/-- C1 (amended): whenever any of the six reads fails, `load_data`
returns six `None`s together with the single error message of the first
failing read, and the caller halts; when that failure is a missing file
the message names the file (a generic parse failure reports only the
exception's own text). -/
theorem load_failure_atomic (fs : FS) :
    ((load_data fs).2 ≠ none →
        (load_data fs).1 = (none, none, none, none, none, none)
        ∧ appProceeds fs = false)
    ∧ (load_data fs).2 = (firstFailure fs).map loadErrMsg
    ∧ ∀ f, firstFailure fs = some (ReadErr.notFound f) →
        ∃ m, (load_data fs).2 = some m ∧ strContains m f = true := by
  refine ⟨?_, load_data_snd fs, ?_⟩
  · intro h
    rcases load_data_dichotomy fs with ⟨t1, t2, t3, t4, t5, t6, he⟩ | ⟨m, he⟩
    · rw [he] at h; simp at h
    · constructor
      · rw [he]
      · simp [appProceeds, he]
  · intro f hf
    refine ⟨loadErrMsg (ReadErr.notFound f), ?_, ?_⟩
    · rw [load_data_snd fs, hf]; rfl
    · exact strContains_append "Error: File '"
        "' tidak ditemukan. Pastikan semua file CSV ada di direktori yang benar." f

/-- C1 witness: with every file missing, the loader returns six `None`s,
the caller halts, and the message names the first missing file. -/
theorem load_failure_atomic_witness :
    (load_data fsNotFound).1 = (none, none, none, none, none, none)
    ∧ appProceeds fsNotFound = false
    ∧ ∃ m, (load_data fsNotFound).2 = some m
        ∧ strContains m "xerpihan_combined_data.csv" = true := by
  have h := load_failure_atomic fsNotFound
  exact ⟨(h.1 (by decide)).1, (h.1 (by decide)).2,
    h.2.2 "xerpihan_combined_data.csv" (by decide)⟩

/-- C9: the loader's six-component result is all-or-nothing — all six
loaded or all six absent — and the caller's check of the first component
alone decides which of the two cases holds. -/
theorem load_all_or_nothing (fs : FS) :
    ((∃ t1 t2 t3 t4 t5 t6, (load_data fs).1 =
        (some t1, some t2, some t3, some t4, some t5, some t6))
      ∨ (load_data fs).1 = (none, none, none, none, none, none))
    ∧ (appProceeds fs = true ↔
        ∃ t1 t2 t3 t4 t5 t6, (load_data fs).1 =
          (some t1, some t2, some t3, some t4, some t5, some t6))
    ∧ (appProceeds fs = false ↔
        (load_data fs).1 = (none, none, none, none, none, none)) := by
  rcases load_data_dichotomy fs with ⟨t1, t2, t3, t4, t5, t6, he⟩ | ⟨m, he⟩
  · refine ⟨Or.inl ⟨t1, t2, t3, t4, t5, t6, by rw [he]⟩, ?_, ?_⟩
    · exact ⟨fun _ => ⟨t1, t2, t3, t4, t5, t6, by rw [he]⟩,
        fun _ => by simp [appProceeds, he]⟩
    · constructor
      · intro hfalse; simp [appProceeds, he] at hfalse
      · intro hc; rw [he] at hc; simp at hc
  · refine ⟨Or.inr (by rw [he]), ?_, ?_⟩
    · constructor
      · intro htrue; simp [appProceeds, he] at htrue
      · intro ⟨t1, t2, t3, t4, t5, t6, hc⟩; rw [he] at hc; simp at hc
    · exact ⟨fun _ => by rw [he], fun _ => by simp [appProceeds, he]⟩

/-- C9 witness: with all six files well-formed the loader succeeds on
all six components and the caller proceeds. -/
theorem load_all_or_nothing_witness :
    appProceeds fsAllOk = true :=
  (load_all_or_nothing fsAllOk).2.1.mpr
    ⟨emptyTable, emptyTable, emptyTable, emptyTable, emptyTable, emptyTable, rfl⟩

/-- C2 counterexample: rendering the Overview page changes the `metrics`
table (the KPI block's in-place `pd.to_numeric` column assignments), so
the Presenter is not side-effect-free over its input tables. -/
theorem overview_mutates_metrics :
    (overviewPage tsMut).2.metrics ≠ tsMut.metrics := by decide

/-- C2 (amended): a page render leaves the five tables other than
`metrics` unchanged, and within `metrics` it preserves the column list
and every column other than the three KPI columns the Overview block
coerces in place. -/
theorem overview_frame_effect (ts : TableSet) :
    (overviewPage ts).2.combined_data = ts.combined_data
    ∧ (overviewPage ts).2.growth_data = ts.growth_data
    ∧ (overviewPage ts).2.final_summary = ts.final_summary
    ∧ (overviewPage ts).2.financial_metrics = ts.financial_metrics
    ∧ (overviewPage ts).2.forecast_combined = ts.forecast_combined
    ∧ (overviewPage ts).2.metrics.cols = ts.metrics.cols
    ∧ ∀ m, m ≠ "Revenue_CAGR" → m ≠ "Avg_EBITDA_Margin" → m ≠ "Cost_to_Revenue" →
        (overviewPage ts).2.metrics.col m = ts.metrics.col m := by
  have h := kpiSlot_frame ts.metrics
  exact ⟨rfl, rfl, rfl, rfl, rfl, h.1, h.2⟩

/-- C2 witness: on the mutating example the untouched `Scenario` column
of `metrics` reads the same before and after the render. -/
theorem overview_frame_effect_witness :
    (overviewPage tsMut).2.metrics.col "Scenario" = tsMut.metrics.col "Scenario" :=
  (overview_frame_effect tsMut).2.2.2.2.2.2 "Scenario" (by decide) (by decide) (by decide)

/-- C3: on the metrics table with rows (Optimistic, 12.5) and
(Moderate, 8.0), the Overview KPI computation of the mean
`Revenue_CAGR` returns 10.25. -/
theorem overview_kpi_mean_example :
    kpiMean tMetricsExample "Revenue_CAGR" = some (some (10.25 : ℚ)) := by
  simp [kpiMean, tMetricsExample, Table.col, Table.colIdx, findIdx,
    toNumericCell, colMean, numVals]
  norm_num

/-- C4: coercing a KPI column gives the missing value exactly at the
non-coercible positions and a (finite) number at every coercible one;
the mean excludes missing entries, and an all-missing column has a
missing mean, not zero. -/
theorem kpi_coercion_missing (cs : List Cell) (i : ℕ) (hi : i < cs.length)
    (hbad : coerces (cs.get ⟨i, hi⟩) = none) :
    (cs.map toNumericCell).get ⟨i, by simpa using hi⟩ = Cell.na
    ∧ (∀ j, ∀ hj : j < cs.length, ∀ q, coerces (cs.get ⟨j, hj⟩) = some q →
        (cs.map toNumericCell).get ⟨j, by simpa using hj⟩ = Cell.num q)
    ∧ colMean (cs.map toNumericCell) =
        (if cs.filterMap coerces = [] then none
         else some ((cs.filterMap coerces).sum / ((cs.filterMap coerces).length : ℚ)))
    ∧ ((∀ c ∈ cs, coerces c = none) → colMean (cs.map toNumericCell) = none) := by
  have hmean : colMean (cs.map toNumericCell) =
      (if cs.filterMap coerces = [] then none
       else some ((cs.filterMap coerces).sum / ((cs.filterMap coerces).length : ℚ))) := by
    rw [colMean, numVals_map_toNumericCell]
    by_cases h : cs.filterMap coerces = [] <;> simp [h]
  refine ⟨?_, ?_, hmean, ?_⟩
  · rw [List.get_eq_getElem, List.getElem_map]
    exact (coerces_none_iff _).mp hbad
  · intro j hj q hq
    rw [List.get_eq_getElem, List.getElem_map]
    exact (coerces_some_iff _ q).mp hq
  · intro hall
    rw [hmean, if_pos (List.filterMap_eq_nil_iff.mpr hall)]

/-- C4 witness: a one-entry column holding a non-numeric token coerces
to missing at that position and its mean is missing, not zero. -/
theorem kpi_coercion_missing_witness :
    ([Cell.str "abc"].map toNumericCell).get ⟨0, by decide⟩ = Cell.na
    ∧ colMean ([Cell.str "abc"].map toNumericCell) = none := by
  have h := kpi_coercion_missing [Cell.str "abc"] 0 (by decide) (by decide)
  exact ⟨h.1, h.2.2.2 (by decide)⟩

/-- C5: filtering by `Category = "Pendapatan"` when no row carries that
category yields zero rows and the missing-category report (no crash);
when matching rows exist but a year column is absent the slot reports
the missing-year-columns condition; and a chart slice is only built
once all eight year columns are present. -/
theorem revenue_trend_guards (t : Table) :
    (∀ j, t.colIdx "Category" = some j →
      (∀ r ∈ t.rows, r.getD j Cell.na ≠ Cell.str "Pendapatan") →
      revenueTrend t = TrendResult.missingCategory
      ∧ ∃ d, filterCategory t "Pendapatan" = some d ∧ d.rows = [])
    ∧ (∀ d, filterCategory t "Pendapatan" = some d → d.rows ≠ [] →
        (∃ y ∈ yearCols, d.cols.contains y = false) →
        revenueTrend t = TrendResult.missingYears)
    ∧ (∀ s, revenueTrend t = TrendResult.chart s →
        ∀ y ∈ yearCols, s.cols.contains y = true) := by
  refine ⟨fun j hj hnone => revenueTrend_eq_missingCategory hj hnone,
    fun d hd hne hmiss => revenueTrend_eq_missingYears hd hne hmiss, ?_⟩
  intro s hs y hy
  unfold revenueTrend at hs
  cases hfc : filterCategory t "Pendapatan" with
  | none => rw [hfc] at hs; simp at hs
  | some d =>
      rw [hfc] at hs
      dsimp only at hs
      by_cases he : d.rows.isEmpty = true
      · rw [if_pos he] at hs
        cases hs
      · rw [if_neg he] at hs
        by_cases hall : (yearCols.all fun y => d.cols.contains y) = true
        · rw [if_pos hall] at hs
          cases hs
          exact List.all_eq_true.mp hall y hy
        · rw [if_neg hall] at hs
          cases hs

/-- C5 witness: a table whose only category is not `"Pendapatan"`
produces the missing-category report over an empty slice, and a table
with a `"Pendapatan"` row but no year columns produces the
missing-year-columns report. -/
theorem revenue_trend_guards_witness :
    (revenueTrend tNoRevenue = TrendResult.missingCategory
      ∧ ∃ d, filterCategory tNoRevenue "Pendapatan" = some d ∧ d.rows = [])
    ∧ revenueTrend tRevenueNoYears = TrendResult.missingYears := by
  refine ⟨(revenue_trend_guards tNoRevenue).1 1 (by decide) (by decide), ?_⟩
  exact (revenue_trend_guards tRevenueNoYears).2.1
    ⟨["Scenario", "Category"], [[Cell.str "Optimistic", Cell.str "Pendapatan"]]⟩
    (by decide) (by decide) ⟨"2024", by decide, by decide⟩

/-- C6: growth-column discovery returns exactly the columns whose name
contains `"Growth"`, in column order (a sublist of the columns); on the
spec's example it yields the two growth columns; and when no column
matches the slot reports the missing-column condition instead of
building a chart. -/
theorem growth_cols_spec :
    (∀ t : Table, ∀ c, c ∈ growthCols t ↔
        c ∈ t.cols ∧ "Growth".toList <:+: c.toList)
    ∧ (∀ t : Table, (growthCols t).Sublist t.cols)
    ∧ growthCols tGrowthExample = ["Revenue_Growth", "EBITDA_Growth"]
    ∧ (∀ t : Table, growthCols t = [] →
        growthSlot t = GrowthResult.noGrowthCols) := by
  refine ⟨?_, ?_, by decide, ?_⟩
  · intro t c
    simp [growthCols, List.mem_filter, strContains, hasSubstr_iff]
  · intro t
    exact List.filter_sublist _
  · intro t h
    simp [growthSlot, h]

/-- C6 witness: a table with no growth columns makes the slot report the
missing-column condition. -/
theorem growth_cols_spec_witness :
    growthSlot emptyTable = GrowthResult.noGrowthCols :=
  growth_cols_spec.2.2.2 emptyTable (by decide)

/-- C8: on every page render each expected data-shape problem is caught
and reported as a condition scoped to its own chart or tile, and every
sibling slot on the page is still computed exactly as it would be
alone.  Missing category (Overview trend), missing metric column
(Overview KPI, Risk volatility), missing numeric columns (Financial
Analysis custom visualization) and missing year columns (Forecasting
trend) each produce their report while the page's remaining slots keep
their standalone outcomes; the Portfolio page's two static slots always
produce theirs. -/
theorem page_failure_isolation (ts : TableSet) :
    ((∀ j, ts.combined_data.colIdx "Category" = some j →
        (∀ r ∈ ts.combined_data.rows, r.getD j Cell.na ≠ Cell.str "Pendapatan") →
        (overviewPage ts).1.trend = TrendResult.missingCategory)
      ∧ (overviewPage ts).1.kpi = (kpiSlot ts.metrics).1
      ∧ (overviewPage ts).1.downloads =
          (toCsv ts.financial_metrics, toCsv ts.final_summary)
      ∧ (overviewPage ts).1.explore =
          exploreDatasets ts.combined_data ts.growth_data (kpiSlot ts.metrics).2
            ts.final_summary ts.financial_metrics)
    ∧ (ts.metrics.col "Revenue_CAGR" = none →
        (overviewPage ts).1.kpi = KpiResult.err "Revenue_CAGR"
        ∧ (overviewPage ts).1.trend = revenueTrend ts.combined_data)
    ∧ (numericCols ts.financial_metrics = [] →
        (financialPage ts).custom = CustomVizResult.noNumericCols
        ∧ (financialPage ts).metricsBar = selectCols ts.financial_metrics
            ["Scenario", "Revenue_CAGR", "Avg_EBITDA_Margin", "Avg_Net_Margin"]
        ∧ (financialPage ts).growthLine =
            selectCols ts.final_summary ["Scenario", "Revenue_CAGR", "EBITDA_CAGR"])
    ∧ (ts.metrics.col "Scenario" = none →
        (riskPage ts).vol = VolResult.err "Scenario"
        ∧ (riskPage ts).decomp = riskDecompSlot
        ∧ ∃ long, riskDecompSlot = some long)
    ∧ (∀ d, filterCategory ts.forecast_combined "Pendapatan" = some d →
        d.rows ≠ [] → (∃ y ∈ yearCols, d.cols.contains y = false) →
        (forecastPage ts).trend = TrendResult.missingYears
        ∧ (forecastPage ts).growth = growthSlot ts.growth_data)
    ∧ (∃ a, portfolioPage.allocation = some a)
    ∧ portfolioPage.performance = performance_data := by
  refine ⟨⟨?_, rfl, rfl, rfl⟩, ?_, ?_, ?_, ?_, ⟨_, rfl⟩, rfl⟩
  · intro j hj hnone
    exact (revenueTrend_eq_missingCategory hj hnone).1
  · intro h
    exact ⟨by show (kpiSlot ts.metrics).1 = _; rw [kpiSlot_err_revenue h], rfl⟩
  · intro h
    refine ⟨?_, rfl, rfl⟩
    show customVizSlot ts.financial_metrics = _
    simp [customVizSlot, h]
  · intro h
    exact ⟨riskVolSlot_err_scenario h, rfl, ⟨_, rfl⟩⟩
  · intro d hd hne hmiss
    exact ⟨revenueTrend_eq_missingYears hd hne hmiss, rfl⟩

/-- C8 witness: on a table set where all four data-shape problems fire
at once, each failing slot reports its own condition and the sibling
slots still deliver their standalone outcomes. -/
theorem page_failure_isolation_witness :
    (overviewPage tsFail).1.trend = TrendResult.missingCategory
    ∧ (overviewPage tsFail).1.kpi = KpiResult.err "Revenue_CAGR"
    ∧ (overviewPage tsFail).1.downloads =
        (toCsv tsFail.financial_metrics, toCsv tsFail.final_summary)
    ∧ (financialPage tsFail).custom = CustomVizResult.noNumericCols
    ∧ (riskPage tsFail).vol = VolResult.err "Scenario"
    ∧ (riskPage tsFail).decomp = riskDecompSlot
    ∧ (forecastPage tsFail).trend = TrendResult.missingYears
    ∧ (forecastPage tsFail).growth = growthSlot tsFail.growth_data
    ∧ ∃ a, portfolioPage.allocation = some a := by
  have h := page_failure_isolation tsFail
  refine ⟨h.1.1 1 (by decide) (by decide), (h.2.1 (by decide)).1, h.1.2.2.1,
    (h.2.2.1 (by decide)).1, (h.2.2.2.1 (by decide)).1,
    (h.2.2.2.1 (by decide)).2.1, ?_, ?_, h.2.2.2.2.2.1⟩
  · exact (h.2.2.2.2.1
      ⟨["Scenario", "Category"], [[Cell.str "Optimistic", Cell.str "Pendapatan"]]⟩
      (by decide) (by decide) ⟨"2024", by decide, by decide⟩).1
  · exact (h.2.2.2.2.1
      ⟨["Scenario", "Category"], [[Cell.str "Optimistic", Cell.str "Pendapatan"]]⟩
      (by decide) (by decide) ⟨"2024", by decide, by decide⟩).2

/-- C10: the exploration selectbox offers exactly the five dataset
names, each of which the `datasets` dict maps to a table (the
missing-key branch is unreachable), and the offered tables are the five
non-forecast tables. -/
theorem explore_lookup_total (c g m f fin : Table) :
    ((exploreDatasets c g m f fin).map Prod.fst = exploreOptions)
    ∧ (∀ n ∈ exploreOptions, ∃ u,
        (exploreDatasets c g m f fin).lookup n = some u)
    ∧ ((exploreDatasets c g m f fin).map Prod.snd = [c, g, m, f, fin]) := by
  refine ⟨rfl, ?_, rfl⟩
  intro n hn
  simp only [exploreOptions, List.mem_cons, List.not_mem_nil, or_false] at hn
  rcases hn with rfl | rfl | rfl | rfl | rfl
  · exact ⟨c, rfl⟩
  · exact ⟨g, rfl⟩
  · exact ⟨m, rfl⟩
  · exact ⟨f, rfl⟩
  · exact ⟨fin, rfl⟩

/-- C10 witness: the lookup succeeds on a concrete offered name. -/
theorem explore_lookup_total_witness :
    ∃ u, (exploreDatasets emptyTable emptyTable emptyTable emptyTable
      emptyTable).lookup "Metrics" = some u :=
  (explore_lookup_total emptyTable emptyTable emptyTable emptyTable
    emptyTable).2.1 "Metrics" (by decide)

end Xerpihan
